import Mathlib

/-!
Verification of the client-intake orchestration service.

Shallow embedding of the Python source:
* `app/services/conversation_service.py` (guided flow engine, `ConversationManager`)
* `app/services/orchestration_service.py` (AI-first `IntelligentOrchestrator`)
* `app/services/firebase_service.py` (default flow definition, store semantics)
* `app/services/ai_chain.py` / `ai_service.py` (generation fallback behaviour)

External collaborators (Firestore, the Gemini generation call, the Baileys
messaging bridge) are modelled by an `Env` record of outcome flags: each
external call either succeeds or fails as dictated by the corresponding flag,
mirroring the spec's treatment of them as opaque services.  Timestamps
(`datetime.now()`) are omitted: no claim depends on them.  String primitives
mirror the Python built-ins on ASCII data (Python's `str.isdigit`,
`str.isalpha`, `str.lower`, `str.title` agree with the ASCII versions used
here on every input appearing in the claims).
-/

namespace Projecto

/-! ### Python string primitives (character-list based, ASCII semantics) -/

/-- Python `len(s)` (code-point count). -/
def pyLen (s : String) : Nat := s.toList.length

/-- Python `s.lower()` (ASCII case folding). -/
def pyLower (s : String) : String := String.mk (s.toList.map Char.toLower)

/-- Python `s.strip()`. -/
def pyStrip (s : String) : String :=
  String.mk (((s.toList.dropWhile Char.isWhitespace).reverse.dropWhile Char.isWhitespace).reverse)

/-- Python `s[:n]`. -/
def pyTake (s : String) (n : Nat) : String := String.mk (s.toList.take n)

/-- Python `s[n:]`. -/
def pyDrop (s : String) (n : Nat) : String := String.mk (s.toList.drop n)

/-- Python `''.join(filter(str.isdigit, s))`. -/
def cleanDigits (s : String) : String := String.mk (s.toList.filter Char.isDigit)

/-- Worker for `pySplit`: `acc` holds the reversed characters of the word
in progress. -/
def pySplitAux (acc : List Char) : List Char → List String
  | [] => if acc.isEmpty then [] else [String.mk acc.reverse]
  | c :: t =>
    if c.isWhitespace then
      if acc.isEmpty then pySplitAux [] t
      else String.mk acc.reverse :: pySplitAux [] t
    else pySplitAux (c :: acc) t

/-- Python `s.split()`: split on whitespace runs, dropping empty pieces. -/
def pySplit (s : String) : List String := pySplitAux [] s.toList

/-- Python `s.isdigit()`: nonempty and all digits. -/
def pyIsDigit (s : String) : Bool := s ≠ "" && s.toList.all Char.isDigit

/-- Python `s.isalpha()`: nonempty and all alphabetic. -/
def pyIsAlpha (s : String) : Bool := s ≠ "" && s.toList.all Char.isAlpha

/-- Python `s.replace(".", "")`. -/
def dropDots (s : String) : String := String.mk (s.toList.filter (fun c => c ≠ '.'))

/-- Does `pat` occur as a contiguous run at the head of `l`? -/
def headMatches : List Char → List Char → Bool
  | [], _ => true
  | _ :: _, [] => false
  | a :: as, b :: bs => a == b && headMatches as bs

/-- Does `pat` occur as a contiguous run anywhere in `l`? -/
def hasRun (pat : List Char) : List Char → Bool
  | [] => pat.isEmpty
  | c :: t => headMatches pat (c :: t) || hasRun pat t

/-- Python `needle in hay` (substring containment). -/
def strContains (hay needle : String) : Bool := hasRun needle.toList hay.toList

/-- One character of Python `s.title()`: uppercase an alphabetic character that
follows a non-alphabetic one, lowercase the rest. -/
def pyTitleAux : Bool → List Char → List Char
  | _, [] => []
  | prevAlpha, c :: cs =>
    (if c.isAlpha then (if prevAlpha then c.toLower else c.toUpper) else c)
      :: pyTitleAux c.isAlpha cs

/-- Python `s.title()` (ASCII semantics). -/
def pyTitle (s : String) : String := String.mk (pyTitleAux false s.toList)

/-- Python `sep.join(ws)` specialised to `" ".join(...)`:
concatenation with a single-space separator. -/
def pyJoinSpace : List String → String
  | [] => ""
  | [w] => w
  | w :: ws => w ++ " " ++ pyJoinSpace ws

/-! ### Data model -/

/-- One step of the conversation flow (`firebase_service.get_conversation_flow`).
The `field` key is present on every step of the default flow, so the
`step_{n}` fallback of `conversation_service.py` line 167 never fires and is
not modelled. -/
structure Step where
  id : Nat
  question : String
  field : String
  required : Bool
  type : String
deriving Repr, DecidableEq

/-- A conversation flow: the ordered list of steps. -/
structure Flow where
  steps : List Step
deriving Repr, DecidableEq

/-- The built-in default flow created by `get_conversation_flow` when the
store holds none (question texts abbreviated to their key sentences is NOT
done: they are reproduced verbatim). -/
def defaultFlow : Flow :=
  ⟨[{ id := 1,
      question := "Olá! Bem-vindo ao nosso escritório de advocacia. Para começar, qual é o seu nome completo?",
      field := "name", required := true, type := "text" },
    { id := 2,
      question := "Em qual área do direito você precisa de ajuda?\n\n1️⃣ Direito Penal\n2️⃣ Direito Civil\n3️⃣ Direito Trabalhista\n4️⃣ Direito de Família\n5️⃣ Outro\n\nPor favor, digite o número ou o nome da área:",
      field := "area_of_law", required := true, type := "choice" },
    { id := 3,
      question := "Descreva brevemente sua situação jurídica. Isso nos ajudará a entender como podemos auxiliá-lo:",
      field := "situation", required := true, type := "text" },
    { id := 4,
      question := "Obrigado pelas informações. Mesmo que o orçamento seja uma preocupação, podemos trabalhar juntos para encontrar um plano de pagamento adequado. Gostaria que eu agendasse uma consulta com um de nossos advogados?\n\nPor favor, responda: Sim ou Não",
      field := "wants_meeting", required := true, type := "boolean" }]⟩

/-- Guided-flow session state (the `session_data` dict of
`conversation_service.py`). -/
structure GuidedSession where
  current_step : Nat := 1
  responses : List (String × String) := []
  flow_completed : Bool := false
  ai_mode : Bool := false
  phone_collected : Bool := false
  lead_id : Option Nat := none
  phone_number : Option String := none
  phone_formatted : Option String := none
deriving Repr, DecidableEq

/-- Set a key in a Python-dict-like association list (overwrite in place,
else append). -/
def rset (rs : List (String × String)) (k v : String) : List (String × String) :=
  match rs with
  | [] => [(k, v)]
  | (k', v') :: rest => if k' = k then (k, v) :: rest else (k', v') :: rset rest k v

/-- Python `d.get(k)` on an association list. -/
def rget (rs : List (String × String)) (k : String) : Option String :=
  match rs with
  | [] => none
  | (k', v') :: rest => if k' = k then some v' else rget rest k

/-- Python `d.get(k, default)` on an association list. -/
def rgetD (rs : List (String × String)) (k d : String) : String := (rget rs k).getD d

/-- The lead record compiled by `ConversationManager._complete_flow`
(timestamp fields omitted). -/
structure LeadRecord where
  name : String
  area_of_law : String
  situation : String
  wants_meeting : String
  session_id : String
  status : String
deriving Repr, DecidableEq

/-- A message handed to the Baileys bridge: WhatsApp address and text. -/
structure Send where
  address : String
  text : String
deriving Repr, DecidableEq

/-- The persistent store as seen through `firebase_service`: the session
document for the session id under consideration and the list of created
leads (a fresh lead's id is its index in that list). -/
structure Store where
  session : Option GuidedSession := none
  leads : List LeadRecord := []
deriving Repr, DecidableEq

/-- Outcomes of the external collaborators for one turn:
* `flow` / `flowLoadOk` — `get_conversation_flow` result, or its raised
  `HTTPException` when the flag is false;
* `sessionSaveOk` — `save_user_session` catches internally and returns this
  boolean (its callers ignore the value);
* `leadSaveOk` — `save_lead_data` raises when false;
* `bridgeRaises` / `bridgeSendOk` — the Baileys send either raises, or
  returns this success boolean;
* `genOk` / `aiReply` — the generation call either succeeds with
  `aiReply message` or fails (absorbed inside `ai_chain.generate_response`). -/
structure Env where
  flow : Flow
  flowLoadOk : Bool := true
  sessionSaveOk : Bool := true
  leadSaveOk : Bool := true
  bridgeRaises : Bool := false
  bridgeSendOk : Bool := true
  genOk : Bool := true
  aiReply : String → String := fun _ => "ai-reply"

/-- Exceptions that can cross a function boundary in the modelled code. -/
inductive Exn where
  | flowLoad
  | leadSave
  | noFirstStep
deriving Repr, DecidableEq

/-- The JSON-ish response dict returned by `ConversationManager` operations;
absent keys are `none`. -/
structure ConvResponse where
  session_id : String
  question : Option String := none
  response : Option String := none
  step_id : Option Nat := none
  is_final_step : Option Bool := none
  flow_completed : Option Bool := none
  ai_mode : Option Bool := none
  phone_collected : Option Bool := none
  redirect_message : Option Bool := none
  lead_saved : Option Bool := none
  lead_id : Option Nat := none
  collecting_phone : Option Bool := none
  validation_error : Option Bool := none
  whatsapp_sent : Option Bool := none
  phone_number : Option String := none
deriving Repr, DecidableEq

/-- Result of one guided turn: the response payload, the in-memory session
dict as the turn left it, the store, and the bridge sends attempted. -/
structure TurnOut where
  resp : ConvResponse
  sess : GuidedSession
  store : Store
  sends : List Send
deriving Repr

/-! ### External-service wrappers -/

/-- Model of `save_user_session`: catches internally; on failure returns `False`,
leaving the store untouched.  Every caller ignores the returned boolean, so
only the store effect is modelled. -/
def saveUserSession (env : Env) (store : Store) (s : GuidedSession) : Store :=
  if env.sessionSaveOk then { store with session := some s } else store

/-- Model of `save_lead_data`: raises `HTTPException` on failure, otherwise returns
the fresh document id. -/
def saveLeadData (env : Env) (store : Store) (lead : LeadRecord) :
    Except Exn (Nat × Store) :=
  if env.leadSaveOk then .ok (store.leads.length, { store with leads := store.leads ++ [lead] })
  else .error .leadSave

/-- Model of `ai_chain.generate_response` via `ai_service.process_chat_message`:
never raises; on generation failure it returns the fixed fallback string. -/
def aiFallbackResponse : String :=
  "Peço desculpas, mas estou enfrentando dificuldades técnicas no momento.\n\nPara garantir que você receba o melhor atendimento jurídico, recomendo que entre em contato diretamente com nossa equipe pelo telefone ou agende uma consulta presencial."

/-- Outcome of one generation call. -/
def aiGenerate (env : Env) (message : String) : String :=
  if env.genOk then env.aiReply message else aiFallbackResponse

/-- Outcome of one Baileys send: `False` when the call raises (the caller
catches), otherwise the bridge's reported boolean. -/
def bridgeOutcome (env : Env) : Bool :=
  if env.bridgeRaises then false else env.bridgeSendOk

/-! ### ConversationManager (guided flow engine) -/

/-- Model of `ConversationManager.start_conversation`: may re-raise (flow load
failure, or no step with id 1). -/
def startConversation (env : Env) (store : Store) (session_id : String) :
    Except Exn (ConvResponse × GuidedSession × Store) :=
  if env.flowLoadOk then
    let flow := env.flow
    let s : GuidedSession := {}
    let store := saveUserSession env store s
    match flow.steps.find? (fun st => st.id == 1) with
    | none => .error .noFirstStep
    | some first =>
      .ok ({ session_id := session_id, question := some first.question,
             step_id := some first.id,
             is_final_step := some (flow.steps.length == 1),
             flow_completed := some false, ai_mode := some false,
             phone_collected := some false }, s, store)
  else .error .flowLoad

/-- Model of `ConversationManager._switch_to_ai_mode`: re-reads the stored session
(an empty dict when absent), forces the AI-mode flags, saves, and forwards
`user_message` to generation.  Its own catch-all cannot fire in the model
because every callee here is total. -/
def switchToAiMode (env : Env) (store : Store) (session_id user_message : String) :
    ConvResponse × GuidedSession × Store :=
  let s := store.session.getD {}
  let s := { s with ai_mode := true, flow_completed := true, phone_collected := true }
  let store := saveUserSession env store s
  let ai := aiGenerate env user_message
  ({ session_id := session_id, response := some ai, ai_mode := some true,
     flow_completed := some true, phone_collected := some true }, s, store)

/-- Low-information tokens of `ConversationManager._is_response_relevant`
(`conversation_service.py` lines 223-226, including the duplicated `"???"`). -/
def irrelevantPatterns : List String :=
  ["oi", "olá", "hello", "hi", "tchau", "bye", "obrigado", "thanks",
   "ok", "tá", "sim", "não", "yes", "no", "???", "???"]

/-- Legal-domain tokens accepted for the `area_of_law` step. -/
def legalTermsGuided : List String :=
  ["penal", "civil", "trabalhista", "criminal", "família", "empresarial", "1", "2", "3", "4"]

/-- Model of `ConversationManager._is_response_relevant`. -/
def isResponseRelevant (response : String) (step : Step) : Bool :=
  let rl := pyLower (pyStrip response)
  if pyLen rl < 2 then false
  else if irrelevantPatterns.contains rl then false
  else if step.field == "name" && (decide (pyLen rl < 2) || pyIsDigit rl) then false
  else if step.field == "area_of_law"
          && !(legalTermsGuided.any (fun t => strContains rl t)) then false
  else true

/-- The fixed phone-request prompt of `_complete_flow` (verbatim, including
the trailing space on the first line of the Python triple-quoted string). -/
def phonePromptMessage : String :=
  "Obrigado por fornecer essas informações! \n\nPara finalizar seu atendimento e conectá-lo diretamente com nossa equipe jurídica, preciso do seu número de WhatsApp.\n\nPor favor, digite seu número completo com DDD (exemplo: 11999999999):"

/-- The phone-validation re-prompt of `_handle_phone_collection`. -/
def guidedPhoneReprompt : String :=
  "Por favor, digite um número válido com DDD (exemplo: 11999999999):"

/-- Model of `ConversationManager._complete_flow`: compile the lead from the stored
responses, persist it, flip the session into phone-collection mode; on a
lead-save failure fall back to AI mode with the fixed English
acknowledgement text (not the user's message). -/
def completeFlow (env : Env) (store : Store) (session_id : String) (s : GuidedSession) :
    ConvResponse × GuidedSession × Store :=
  let lead : LeadRecord :=
    { name := rgetD s.responses "name" "Unknown",
      area_of_law := rgetD s.responses "area_of_law" "Not specified",
      situation := rgetD s.responses "situation" "Not provided",
      wants_meeting := rgetD s.responses "wants_meeting" "Not specified",
      session_id := session_id, status := "intake_completed" }
  match saveLeadData env store lead with
  | .error _ => switchToAiMode env store session_id "Thank you for your information."
  | .ok (leadId, store) =>
    let s := { s with flow_completed := true, ai_mode := false, phone_collected := false,
                      lead_id := some leadId }
    let store := saveUserSession env store s
    ({ session_id := session_id, question := some phonePromptMessage,
       flow_completed := some true, ai_mode := some false, phone_collected := some false,
       lead_saved := some true, lead_id := some leadId, collecting_phone := some true },
     s, store)

/-- The 10/11-digit formatting shared by both phone-handling code paths. -/
def guidedPhoneFormat (d : String) : String :=
  if pyLen d == 10 then "55" ++ pyTake d 2 ++ "9" ++ pyDrop d 2 else "55" ++ d

/-- The WhatsApp handoff text composed by `_handle_phone_collection`
(situation truncated to 100 characters). -/
def whatsappHandoffMessage (user_name area situation : String) : String :=
  "Olá " ++ user_name ++ "! 👋\n\nRecebemos suas informações através do nosso chatbot e nossa equipe jurídica está pronta para ajudá-lo.\n\n📋 *Resumo do seu caso:*\n• Área: " ++ area ++ "\n• Situação: " ++ pyTake situation 100 ++ "...\n\nEm breve entraremos em contato para agendar uma consulta personalizada.\n\nAtenciosamente,\nEquipe Jurídica"

/-- The confirmation text returned after a successful phone collection. -/
def phoneConfirmationMessage (phone_clean : String) : String :=
  "Perfeito! Confirmamos seu número: " ++ phone_clean ++ "\n\n✅ Suas informações foram registradas com sucesso\n📱 Enviamos uma mensagem para seu WhatsApp\n👨‍💼 Nossa equipe entrará em contato em breve\n\nAgora posso responder outras dúvidas que você tenha sobre nossos serviços jurídicos. Como posso ajudá-lo?"

/-- Model of `ConversationManager._handle_phone_collection`.  The `lead_data` dict it
builds at lines 357-362 is dead code (never passed to `update_lead_data`)
and is not modelled.  The Baileys send is wrapped in its own try/except, so
a bridge failure only clears the success flag. -/
def handlePhoneCollection (env : Env) (store : Store) (session_id : String)
    (s : GuidedSession) (user_response : String) : TurnOut :=
  let phone_clean := cleanDigits user_response
  if pyLen phone_clean < 10 || pyLen phone_clean > 11 then
    { resp := { session_id := session_id, question := some guidedPhoneReprompt,
                flow_completed := some true, ai_mode := some false,
                phone_collected := some false, collecting_phone := some true,
                validation_error := some true },
      sess := s, store := store, sends := [] }
  else
    let phone_formatted := guidedPhoneFormat phone_clean
    let s := { s with phone_collected := true, ai_mode := true,
                      phone_number := some phone_clean,
                      phone_formatted := some phone_formatted }
    let store := saveUserSession env store s
    let msg := whatsappHandoffMessage (rgetD s.responses "name" "Cliente")
      (rgetD s.responses "area_of_law" "Não especificada")
      (rgetD s.responses "situation" "Não informada")
    let success := bridgeOutcome env
    { resp := { session_id := session_id,
                response := some (phoneConfirmationMessage phone_clean),
                flow_completed := some true, ai_mode := some true,
                phone_collected := some true, whatsapp_sent := some success,
                phone_number := some phone_clean },
      sess := s, store := store,
      sends := [⟨phone_formatted ++ "@s.whatsapp.net", msg⟩] }

/-- Model of `ConversationManager.process_response`: one guided turn.  The
catch-all at lines 200-203 fires exactly for the exceptions that escape a
callee: a re-raise from `start_conversation` and a flow-load failure (all
other callees absorb their own errors), and it falls back to
`_switch_to_ai_mode`. -/
def processResponse (env : Env) (store : Store) (session_id user_response : String) :
    TurnOut :=
  match store.session with
  | none =>
    match startConversation env store session_id with
    | .ok (r, s, store') => { resp := r, sess := s, store := store', sends := [] }
    | .error _ =>
      let (r, s, store') := switchToAiMode env store session_id user_response
      { resp := r, sess := s, store := store', sends := [] }
  | some s =>
    if s.flow_completed && !s.phone_collected then
      handlePhoneCollection env store session_id s user_response
    else if s.ai_mode then
      { resp := { session_id := session_id,
                  response := some (aiGenerate env user_response),
                  ai_mode := some true, flow_completed := some true,
                  phone_collected := some s.phone_collected },
        sess := s, store := store, sends := [] }
    else if env.flowLoadOk then
      let flow := env.flow
      match flow.steps.find? (fun st => st.id == s.current_step) with
      | none =>
        let (r, s', store') := switchToAiMode env store session_id user_response
        { resp := r, sess := s', store := store', sends := [] }
      | some stepData =>
        if !(isResponseRelevant user_response stepData) then
          { resp := { session_id := session_id,
                      question := some ("Por favor, responda à pergunta atual: " ++ stepData.question),
                      step_id := some stepData.id, is_final_step := some false,
                      flow_completed := some false, ai_mode := some false,
                      redirect_message := some true },
            sess := s, store := store, sends := [] }
        else
          let s := { s with responses := rset s.responses stepData.field (pyStrip user_response) }
          let nextId := s.current_step + 1
          match flow.steps.find? (fun st => st.id == nextId) with
          | some nextStep =>
            let s := { s with current_step := nextId }
            let store := saveUserSession env store s
            { resp := { session_id := session_id, question := some nextStep.question,
                        step_id := some nextStep.id,
                        is_final_step := some (nextId == flow.steps.length),
                        flow_completed := some false, ai_mode := some false,
                        phone_collected := some false },
              sess := s, store := store, sends := [] }
          | none =>
            let (r, s', store') := completeFlow env store session_id s
            { resp := r, sess := s', store := store', sends := [] }
    else
      let (r, s', store') := switchToAiMode env store session_id user_response
      { resp := r, sess := s', store := store', sends := [] }

/-! ### IntelligentOrchestrator (AI-first strategy, `orchestration_service.py`) -/

/-- The `lead_data` dict: the four extractable fields; `none` models an
absent key. -/
structure LeadData where
  name : Option String := none
  area_of_law : Option String := none
  situation : Option String := none
  consent : Option Bool := none
deriving Repr, DecidableEq

/-- Python truthiness of `d.get(field)` for a string-valued field: false
when the key is absent or the value is the empty string. -/
def strTruthy : Option String → Bool
  | none => false
  | some s => s != ""

/-- Python truthiness of `d.get(field)` for a boolean-valued field. -/
def boolTruthy : Option Bool → Bool
  | none => false
  | some b => b

/-- Words whose presence blocks name extraction
(`_extract_lead_info`, lines 139-141). -/
def nameExcludeWords : List String :=
  ["direito", "advogado", "processo", "problema", "situação", "preciso", "quero"]

/-- The keyword → canonical-label dictionary for `area_of_law`
(insertion order is the Python dict iteration order). -/
def legalAreas : List (String × String) :=
  [("penal", "Direito Penal"), ("criminal", "Direito Penal"),
   ("civil", "Direito Civil"), ("trabalhista", "Direito Trabalhista"),
   ("trabalho", "Direito Trabalhista"), ("família", "Direito de Família"),
   ("divórcio", "Direito de Família"), ("empresarial", "Direito Empresarial"),
   ("empresa", "Direito Empresarial")]

/-- Narrative indicators for `situation` extraction. -/
def situationIndicators : List String :=
  ["problema", "situação", "preciso", "aconteceu", "estou",
   "tenho", "sofri", "fui", "recebi", "processo"]

/-- Affirmative tokens for `consent` extraction. -/
def consentIndicators : List String :=
  ["sim", "quero", "aceito", "concordo", "pode", "ok", "claro",
   "sim por favor", "pode ser", "tudo bem"]

/-- Model of `IntelligentOrchestrator._extract_lead_info`: heuristically extract the
fields not yet (truthily) present in `cur`; a `none` field in the result
models a key absent from the returned dict. -/
def extractLeadInfo (message : String) (cur : LeadData) : LeadData :=
  let ml := pyLower message
  let words := pySplit message
  { name :=
      if !strTruthy cur.name
          && decide (2 ≤ words.length)
          && !(nameExcludeWords.any (fun w => strContains ml w))
          && (words.take 2).all (fun w => pyIsAlpha w || pyIsAlpha (dropDots w))
      then some (pyTitle (pyJoinSpace (words.take 2)))
      else none,
    area_of_law :=
      if !strTruthy cur.area_of_law
      then (legalAreas.find? (fun kv => strContains ml kv.1)).map (fun kv => kv.2)
      else none,
    situation :=
      if !strTruthy cur.situation && decide (20 < pyLen message)
          && situationIndicators.any (fun w => strContains ml w)
      then some (pyTake message 200)
      else none,
    consent :=
      if !boolTruthy cur.consent && consentIndicators.any (fun w => strContains ml w)
      then some true
      else none }

/-- Is the extracted dict nonempty (Python truthiness of
`if extracted_info:`)? -/
def extractedNonempty (e : LeadData) : Bool :=
  e.name.isSome || e.area_of_law.isSome || e.situation.isSome || e.consent.isSome

/-- Model of `session_data["lead_data"].update(extracted)`: keys present in the
update overwrite, absent keys are preserved. -/
def mergeLead (cur upd : LeadData) : LeadData :=
  { name := match upd.name with | some v => some v | none => cur.name,
    area_of_law := match upd.area_of_law with | some v => some v | none => cur.area_of_law,
    situation := match upd.situation with | some v => some v | none => cur.situation,
    consent := match upd.consent with | some v => some v | none => cur.consent }

/-- The `lead_data` evolution of one `process_message` turn
(`orchestration_service.py` lines 54-58): merge only when the extraction
produced something. -/
def leadStep (ld : LeadData) (m : String) : LeadData :=
  let e := extractLeadInfo m ld
  if extractedNonempty e then mergeLead ld e else ld

/-- The session's `lead_data` after processing a message sequence, starting
from the empty dict of a fresh session. -/
def leadAfter (msgs : List String) : LeadData := msgs.foldl leadStep {}

/-- AI-first session state (the `session_data` dict of
`orchestration_service.py`). -/
structure AISession where
  session_id : String
  platform : String := "web"
  phone_number : Option String := none
  lead_data : LeadData := {}
  message_count : Nat := 0
  lead_saved : Bool := false
  lead_id : Option Nat := none
  phone_formatted : Option String := none
  phone_submitted : Bool := false
deriving Repr, DecidableEq

/-- The lead record persisted by `_save_lead_if_ready`
(timestamp fields omitted). -/
structure AILeadRecord where
  name : String
  area_of_law : String
  situation : String
  consent : Bool
  phone_number : Option String
  platform : String
  session_id : String
  message_count : Nat
  status : String
deriving Repr, DecidableEq

/-- Store as seen by the AI-first orchestrator. -/
structure AIStore where
  session : Option AISession := none
  leads : List AILeadRecord := []
deriving Repr, DecidableEq

/-- Model of `save_user_session` for AI-first sessions (same swallow-and-return-
boolean semantics as the guided one). -/
def saveAISession (env : Env) (store : AIStore) (s : AISession) : AIStore :=
  if env.sessionSaveOk then { store with session := some s } else store

/-- Response payload of the `IntelligentOrchestrator` operations. -/
structure AIResponse where
  response_type : String
  session_id : String
  platform : Option String := none
  response : Option String := none
  ai_mode : Option Bool := none
  lead_data : Option LeadData := none
  message_count : Option Nat := none
  phone_number : Option String := none
  whatsapp_sent : Option Bool := none
  message : Option String := none
deriving Repr, DecidableEq

/-- Result of one AI-first operation. -/
structure AIOut where
  resp : AIResponse
  sess : AISession
  store : AIStore
  sends : List Send
deriving Repr

/-- Model of `IntelligentOrchestrator._should_save_lead`. -/
def shouldSaveLead (s : AISession) : Bool :=
  strTruthy s.lead_data.name
    && (strTruthy s.lead_data.area_of_law || strTruthy s.lead_data.situation
        || boolTruthy s.lead_data.consent)
    && !s.lead_saved

/-- Model of `IntelligentOrchestrator._save_lead_if_ready`: its internal try/except
swallows a lead-store failure, leaving `lead_saved` false. -/
def saveLeadIfReady (env : Env) (store : AIStore) (s : AISession) :
    AISession × AIStore :=
  if env.leadSaveOk then
    let record : AILeadRecord :=
      { name := s.lead_data.name.getD "Unknown",
        area_of_law := s.lead_data.area_of_law.getD "Not specified",
        situation := s.lead_data.situation.getD "Not provided",
        consent := s.lead_data.consent.getD false,
        phone_number := s.phone_number, platform := s.platform,
        session_id := s.session_id, message_count := s.message_count,
        status := "ai_collected" }
    let leadId := store.leads.length
    let store := { store with leads := store.leads ++ [record] }
    let s := { s with lead_saved := true, lead_id := some leadId }
    (s, saveAISession env store s)
  else (s, store)

/-- Model of `IntelligentOrchestrator.process_message`: every callee absorbs its own
failures (the generation call falls back to its fixed string, the lead save
swallows, the session saves return ignored booleans), so the top-level
catch-all at lines 91-99 is unreachable over the modelled failure modes and
the turn always produces the `ai_intelligent` payload. -/
def processMessage (env : Env) (store : AIStore) (message session_id : String)
    (phone_number : Option String) (platform : String) : AIOut :=
  let gp : AISession × AIStore :=
    match store.session with
    | some s => (s, store)
    | none =>
      let s : AISession := { session_id := session_id, platform := platform,
                             phone_number := phone_number }
      (s, saveAISession env store s)
  let extracted := extractLeadInfo message gp.1.lead_data
  let ep : AISession × AIStore :=
    if extractedNonempty extracted then
      let s := { gp.1 with lead_data := mergeLead gp.1.lead_data extracted }
      (s, saveAISession env gp.2 s)
    else gp
  let ai := aiGenerate env message
  let lp : AISession × AIStore :=
    if shouldSaveLead ep.1 then saveLeadIfReady env ep.2 ep.1 else ep
  let s := { lp.1 with message_count := lp.1.message_count + 1 }
  let store := saveAISession env lp.2 s
  { resp := { response_type := "ai_intelligent", platform := some platform,
              session_id := session_id, response := some ai, ai_mode := some true,
              lead_data := some s.lead_data, message_count := some s.message_count },
    sess := s, store := store, sends := [] }

/-- The WhatsApp text composed by `handle_phone_number_submission`. -/
def orchWhatsappMessage (user_name : String) : String :=
  "Olá " ++ user_name ++ "! 👋\n\nRecebemos sua solicitação através do nosso site e estou aqui para ajudá-lo com questões jurídicas.\n\nNossa equipe especializada está pronta para analisar seu caso. Vamos continuar nossa conversa aqui no WhatsApp para maior comodidade.\n\nComo posso ajudá-lo hoje? 🤝"

/-- The confirmation text of `handle_phone_number_submission`, depending on
the bridge's reported success. -/
def phoneSubmittedMessage (success : Bool) : String :=
  "✅ Perfeito! " ++
    (if success then "Enviamos uma mensagem para seu WhatsApp. Continue a conversa por lá!"
     else "Registramos seu número. Nossa equipe entrará em contato em breve.")

/-- Model of `IntelligentOrchestrator.handle_phone_number_submission`: strips the
input to digits, applies the country-code formatting only to 10- and
11-digit results (anything else is used as-is, with no validation error),
stores the number, and attempts the handoff send unconditionally. -/
def handlePhoneNumberSubmission (env : Env) (store : AIStore)
    (phone_number session_id : String) : AIOut :=
  let s := store.session.getD { session_id := session_id }
  let phone_clean := cleanDigits phone_number
  let phone_formatted :=
    if pyLen phone_clean == 10 then "55" ++ pyTake phone_clean 2 ++ "9" ++ pyDrop phone_clean 2
    else if pyLen phone_clean == 11 then "55" ++ phone_clean
    else phone_clean
  let s := { s with phone_number := some phone_clean,
                    phone_formatted := some phone_formatted, phone_submitted := true }
  let store := saveAISession env store s
  let msg := orchWhatsappMessage (s.lead_data.name.getD "Cliente")
  let success := bridgeOutcome env
  { resp := { response_type := "phone_submitted", session_id := session_id,
              phone_number := some phone_clean, whatsapp_sent := some success,
              message := some (phoneSubmittedMessage success) },
    sess := s, store := store,
    sends := [⟨phone_formatted ++ "@s.whatsapp.net", msg⟩] }

/-- The slice of `get_session_context`'s payload built from the session
store (the AI-memory summary is outside the modelled core). -/
structure SessionContext where
  session_id : String
  lead_data : LeadData
  lead_saved : Bool
  platform : String
  message_count : Nat
deriving Repr, DecidableEq

/-- Model of `IntelligentOrchestrator.get_session_context`: total, never raises. -/
def getSessionContext (store : AIStore) (session_id : String) : SessionContext :=
  let s := store.session.getD { session_id := session_id }
  { session_id := session_id, lead_data := s.lead_data,
    lead_saved := s.lead_saved, platform := s.platform,
    message_count := s.message_count }

/-! ### Derived definitions used by the claims -/

/-- The pure phone normalisation shared by both code paths
(`_handle_phone_collection` lines 323-342 after its range check, and
`handle_phone_number_submission` lines 266-274): strip to digits, insert a
literal `"9"` after the 2-digit area code of a 10-digit number, prefix
`"55"` to a 10- or 11-digit result, and leave anything else unchanged. -/
def formatBrazilPhone (d : String) : String :=
  if pyLen d == 10 then "55" ++ pyTake d 2 ++ "9" ++ pyDrop d 2
  else if pyLen d == 11 then "55" ++ d
  else d

/-- End-to-end normalisation of a raw phone input. -/
def normalizePhone (raw : String) : String := formatBrazilPhone (cleanDigits raw)

/-- Field-wise extension order on `lead_data`: every field already set keeps
its exact value. -/
def leadLE (a b : LeadData) : Prop :=
  (∀ v, a.name = some v → b.name = some v)
    ∧ (∀ v, a.area_of_law = some v → b.area_of_law = some v)
    ∧ (∀ v, a.situation = some v → b.situation = some v)
    ∧ (∀ v, a.consent = some v → b.consent = some v)

/-- An extraction result only touches fields that are still unset in `cur`. -/
def onlyUnsetFields (cur e : LeadData) : Prop :=
  (cur.name.isSome → e.name = none)
    ∧ (cur.area_of_law.isSome → e.area_of_law = none)
    ∧ (cur.situation.isSome → e.situation = none)
    ∧ (cur.consent.isSome → e.consent = none)

/-- Well-formedness of reachable `lead_data`: set string fields are
nonempty and consent is never explicitly false (so Python truthiness
coincides with key presence). -/
def leadWF (ld : LeadData) : Prop :=
  (∀ v, ld.name = some v → v ≠ "")
    ∧ (∀ v, ld.area_of_law = some v → v ≠ "")
    ∧ (∀ v, ld.situation = some v → v ≠ "")
    ∧ ld.consent ≠ some false

/-- Are consecutive entries strictly increasing? -/
def idsAscending : List Nat → Bool
  | [] => true
  | [_] => true
  | a :: b :: t => decide (a < b) && idsAscending (b :: t)

/-- Step ids are strictly ascending. -/
def stepsAscending (f : Flow) : Bool := idsAscending (f.steps.map Step.id)

/-! ### Concrete scenario fixtures -/

/-- All-services-healthy environment over the default flow. -/
def envOk : Env := { flow := defaultFlow }

/-- Environment whose flow store is down. -/
def envFlowDown : Env := { flow := defaultFlow, flowLoadOk := false }

/-- Environment whose session store silently fails every write. -/
def envSessionSaveDown : Env := { flow := defaultFlow, sessionSaveOk := false }

/-- Empty store. -/
def emptyStore : Store := {}

/-- The store right after `start_conversation` on a fresh session. -/
def storeAfterStart : Store :=
  match startConversation envOk emptyStore "s1" with
  | .ok (_, _, st) => st
  | .error _ => emptyStore

/-- Turn 1 of the C1 scenario: answering the name question. -/
def c1Turn1 : TurnOut := processResponse envOk storeAfterStart "s1" "Maria Silva"

/-- Turn 2: answering the area-of-law question. -/
def c1Turn2 : TurnOut := processResponse envOk c1Turn1.store "s1" "civil"

/-- Turn 3: answering the situation question. -/
def c1Turn3 : TurnOut := processResponse envOk c1Turn2.store "s1" "preciso de ajuda com um contrato"

/-- Turn 4: answering the final consent question with the spec's `"sim"`. -/
def c1Turn4 : TurnOut := processResponse envOk c1Turn3.store "s1" "sim"

/-- Turn 4 variant: an affirmative answer that is not in the
low-information token list. -/
def c1Turn4Variant : TurnOut := processResponse envOk c1Turn3.store "s1" "sim, quero"

/-- An ascending but non-contiguous flow (ids 1, 3, 4): legal per the data
model, which requires ascending but not contiguous ids. -/
def gapFlow : Flow :=
  ⟨[{ id := 1, question := "q1", field := "name", required := true, type := "text" },
    { id := 3, question := "q3", field := "situation", required := true, type := "text" },
    { id := 4, question := "q4", field := "wants_meeting", required := true, type := "boolean" }]⟩

/-- Healthy environment over the gapped flow. -/
def envGap : Env := { flow := gapFlow }

/-- A session sitting at step 3 of the gapped flow. -/
def gapStore : Store := { session := some { current_step := 3 } }

/-- Accepted answer at step 3 of the gapped flow. -/
def gapTurn : TurnOut := processResponse envGap gapStore "s1" "tenho um problema"

/-- A session in phone-collection mode (flow completed, phone pending). -/
def phoneStore : Store :=
  { session := some { current_step := 4, flow_completed := true, phone_collected := false,
                      responses := [("name", "Maria Silva"), ("area_of_law", "civil"),
                                    ("situation", "preciso de ajuda com um contrato"),
                                    ("wants_meeting", "sim, quero")] } }

/-- An AI-first store holding a fresh session. -/
def aiStore1 : AIStore := { session := some { session_id := "s1" } }

/-- The public submitPhone operation applied to the 5-digit input of the
spec's validation scenario. -/
def submitPhoneShort : AIOut := handlePhoneNumberSubmission envOk aiStore1 "11999" "s1"

/-- A mid-flow guided turn under an environment whose session store fails
every write. -/
def saveFailTurn : TurnOut := processResponse envSessionSaveDown storeAfterStart "s1" "Maria Silva"

/-- Environment over the gapped flow whose lead store raises on write. -/
def envGapLeadDown : Env := { flow := gapFlow, leadSaveOk := false }

/-- A session sitting at the gapped flow's last step. -/
def gapLastStore : Store := { session := some { current_step := 4 } }

/-- A session sitting at the gapped flow's first step. -/
def gapStartStore : Store := { session := some {} }

set_option maxRecDepth 40000

/-! ### Auxiliary lemmas -/

theorem saveUserSession_leads (env : Env) (store : Store) (s : GuidedSession) :
    (saveUserSession env store s).leads = store.leads := by
  unfold saveUserSession; split <;> rfl

theorem name_step_rejects_42 (st : Step) (h : st.field = "name") :
    isResponseRelevant "42" st = false := by
  simp only [isResponseRelevant]; rw [h]; decide

/-! ### Claim theorems -/

/-- C1.  The spec's completion scenario is broken by the code: after
"Maria Silva", "civil", "preciso de ajuda com um contrato", the fourth
default answer `"sim"` is classified as a low-information token by
`_is_response_relevant` (it appears verbatim in `irrelevant_patterns`,
`conversation_service.py` line 225) even though step 4's own question
instructs "responda: Sim ou Não".  The turn re-prompts, no `LeadRecord` is
persisted, and the session never reaches phone collection; by contrast the
variant answer "sim, quero" completes the flow exactly as the claim
describes (lead persisted, `flow_completed = true`, PHONE_COLLECTION flags,
fixed phone-request prompt). -/
theorem c1_scenario_code_bug :
    (c1Turn1.resp.step_id = some 2 ∧ c1Turn2.resp.step_id = some 3
      ∧ c1Turn3.resp.step_id = some 4)
    ∧ c1Turn4.resp.redirect_message = some true
    ∧ c1Turn4.resp.flow_completed = some false
    ∧ c1Turn4.store.leads = []
    ∧ c1Turn4.store.session.map GuidedSession.flow_completed = some false
    ∧ c1Turn4Variant.resp.question = some phonePromptMessage
    ∧ c1Turn4Variant.resp.flow_completed = some true
    ∧ c1Turn4Variant.resp.ai_mode = some false
    ∧ c1Turn4Variant.resp.phone_collected = some false
    ∧ c1Turn4Variant.resp.lead_saved = some true
    ∧ c1Turn4Variant.store.leads =
        [{ name := "Maria Silva", area_of_law := "civil",
           situation := "preciso de ajuda com um contrato",
           wants_meeting := "sim, quero", session_id := "s1",
           status := "intake_completed" }] := by
  decide

/-- C2.  Phone normalisation: both sample inputs converge to
`"5511999999999"`; for any raw input all non-digit characters are stripped,
a 10-digit result has a literal `"9"` inserted after the 2-digit area code
before the `"55"` prefix, and an 11-digit result is prefixed with `"55"`
directly. -/
theorem c2_phone_normalization :
    normalizePhone "11999999999" = "5511999999999"
    ∧ normalizePhone "1199999999" = "5511999999999"
    ∧ (∀ raw : String, (cleanDigits raw).toList = raw.toList.filter Char.isDigit)
    ∧ (∀ raw : String, pyLen (cleanDigits raw) = 10 →
        normalizePhone raw =
          "55" ++ pyTake (cleanDigits raw) 2 ++ "9" ++ pyDrop (cleanDigits raw) 2)
    ∧ (∀ raw : String, pyLen (cleanDigits raw) = 11 →
        normalizePhone raw = "55" ++ cleanDigits raw) := by
  refine ⟨by decide, by decide, fun raw => rfl, fun raw h => ?_, fun raw h => ?_⟩
  · simp [normalizePhone, formatBrazilPhone, h]
  · simp [normalizePhone, formatBrazilPhone, h]

/-- Witness for C2 at the punctuated 10-digit input `"(11) 9999-9999"`. -/
theorem c2_witness :
    pyLen (cleanDigits "(11) 9999-9999") = 10
    ∧ normalizePhone "(11) 9999-9999" =
        "55" ++ pyTake (cleanDigits "(11) 9999-9999") 2 ++ "9"
          ++ pyDrop (cleanDigits "(11) 9999-9999") 2 :=
  ⟨by decide, c2_phone_normalization.2.2.2.1 "(11) 9999-9999" (by decide)⟩

/-- Counterexample to C3 as stated: the public submitPhone operation
(`handle_phone_number_submission`) accepts the 5-digit input `"11999"`
without any validation error: it returns the `phone_submitted` payload,
stores the digits on the session as-is, and attempts the WhatsApp handoff
send — contradicting "returns a validation-error re-prompt … and no other
session state is mutated … for the public submitPhone operation". -/
theorem c3_counterexample :
    pyLen (cleanDigits "11999") = 5
    ∧ submitPhoneShort.resp.response_type = "phone_submitted"
    ∧ submitPhoneShort.resp.whatsapp_sent = some true
    ∧ submitPhoneShort.store.session =
        some { session_id := "s1", phone_number := some "11999",
               phone_formatted := some "11999", phone_submitted := true }
    ∧ submitPhoneShort.sends.length = 1 := by
  decide

/-- C3 as amended: the out-of-range rejection holds for the guided-flow
phone-collection turn (validation-error re-prompt, no state mutation, no
send); the public submitPhone operation performs no digit-count validation —
it stores the stripped digits unchanged (no country-code formatting for
out-of-range lengths), marks the phone submitted, and proceeds with the
handoff send. -/
theorem c3_amended :
    (∀ (env : Env) (store : Store) (sid : String) (s : GuidedSession) (raw : String),
      store.session = some s → s.flow_completed = true → s.phone_collected = false →
      (pyLen (cleanDigits raw) < 10 ∨ 11 < pyLen (cleanDigits raw)) →
      (processResponse env store sid raw).resp.validation_error = some true
        ∧ (processResponse env store sid raw).resp.question = some guidedPhoneReprompt
        ∧ (processResponse env store sid raw).resp.phone_collected = some false
        ∧ (processResponse env store sid raw).resp.flow_completed = some true
        ∧ (processResponse env store sid raw).store = store
        ∧ (processResponse env store sid raw).sess = s
        ∧ (processResponse env store sid raw).sends = [])
    ∧ (∀ (env : Env) (store : AIStore) (sid raw : String),
      (pyLen (cleanDigits raw) < 10 ∨ 11 < pyLen (cleanDigits raw)) →
      (handlePhoneNumberSubmission env store raw sid).resp.response_type = "phone_submitted"
        ∧ (handlePhoneNumberSubmission env store raw sid).sess.phone_number
            = some (cleanDigits raw)
        ∧ (handlePhoneNumberSubmission env store raw sid).sess.phone_formatted
            = some (cleanDigits raw)
        ∧ (handlePhoneNumberSubmission env store raw sid).sess.phone_submitted = true
        ∧ (handlePhoneNumberSubmission env store raw sid).sends.length = 1) := by
  constructor
  · intro env store sid s raw hsess hfc hpc hlen
    have hcond : (decide (pyLen (cleanDigits raw) < 10)
        || decide (pyLen (cleanDigits raw) > 11)) = true := by
      rcases hlen with h | h <;> simp [h]
    simp [processResponse, hsess, hfc, hpc, handlePhoneCollection, hcond]
  · intro env store sid raw hlen
    have h10 : (pyLen (cleanDigits raw) == 10) = false := by
      rcases hlen with h | h <;> simp <;> omega
    have h11 : (pyLen (cleanDigits raw) == 11) = false := by
      rcases hlen with h | h <;> simp <;> omega
    simp [handlePhoneNumberSubmission, h10, h11]

/-- Witness for C3's amended statement: the guided turn rejects `"11999"`
with a validation error; the public operation accepts `"123"`. -/
theorem c3_witness :
    (processResponse envOk phoneStore "s1" "11999").resp.validation_error = some true
    ∧ (handlePhoneNumberSubmission envOk aiStore1 "123" "s1").resp.response_type
        = "phone_submitted" :=
  ⟨(c3_amended.1 envOk phoneStore "s1"
      { current_step := 4, flow_completed := true, phone_collected := false,
        responses := [("name", "Maria Silva"), ("area_of_law", "civil"),
                      ("situation", "preciso de ajuda com um contrato"),
                      ("wants_meeting", "sim, quero")] }
      "11999" rfl rfl rfl (Or.inl (by decide))).1,
   (c3_amended.2 envOk aiStore1 "s1" "123" (Or.inl (by decide))).1⟩

/-- C4.  In phone-collection mode, submitting `"11987654321"` normalises to
`"5511987654321"`, attempts exactly one messaging-bridge send, and sets
`ai_mode = true` and `phone_collected = true` on the session dict
unconditionally — the environment (including both bridge-failure modes) is
universally quantified, and the bridge's outcome appears only in the
returned `whatsapp_sent` flag. -/
theorem c4_phone_success (env : Env) (store : Store) (sid : String) (s : GuidedSession)
    (hsess : store.session = some s) (hfc : s.flow_completed = true)
    (hpc : s.phone_collected = false) :
    (processResponse env store sid "11987654321").sess.phone_formatted
        = some "5511987654321"
      ∧ (processResponse env store sid "11987654321").sess.ai_mode = true
      ∧ (processResponse env store sid "11987654321").sess.phone_collected = true
      ∧ (processResponse env store sid "11987654321").sends.length = 1
      ∧ (processResponse env store sid "11987654321").resp.ai_mode = some true
      ∧ (processResponse env store sid "11987654321").resp.phone_collected = some true
      ∧ (processResponse env store sid "11987654321").resp.whatsapp_sent
          = some (bridgeOutcome env) := by
  have hclean : cleanDigits "11987654321" = "11987654321" := by decide
  have hfmt : guidedPhoneFormat "11987654321" = "5511987654321" := by decide
  have hlen : pyLen "11987654321" = 11 := by decide
  simp [processResponse, hsess, hfc, hpc, handlePhoneCollection, hclean, hfmt, hlen]

/-- Witness for C4 under an environment whose bridge raises. -/
theorem c4_witness :
    (processResponse { flow := defaultFlow, bridgeRaises := true } phoneStore "s1"
        "11987654321").sess.phone_formatted = some "5511987654321"
    ∧ (processResponse { flow := defaultFlow, bridgeRaises := true } phoneStore "s1"
        "11987654321").resp.whatsapp_sent
        = some (bridgeOutcome { flow := defaultFlow, bridgeRaises := true }) :=
  ⟨(c4_phone_success { flow := defaultFlow, bridgeRaises := true } phoneStore "s1"
      { current_step := 4, flow_completed := true, phone_collected := false,
        responses := [("name", "Maria Silva"), ("area_of_law", "civil"),
                      ("situation", "preciso de ajuda com um contrato"),
                      ("wants_meeting", "sim, quero")] }
      rfl rfl rfl).1,
   (c4_phone_success { flow := defaultFlow, bridgeRaises := true } phoneStore "s1"
      { current_step := 4, flow_completed := true, phone_collected := false,
        responses := [("name", "Maria Silva"), ("area_of_law", "civil"),
                      ("situation", "preciso de ajuda com um contrato"),
                      ("wants_meeting", "sim, quero")] }
      rfl rfl rfl).2.2.2.2.2.2⟩

/-- Counterexample to C6 as stated: with every session-store write failing
(`save_user_session` returns `False`, which all callers ignore), a guided
turn does NOT fall back to AI mode — the accepted answer advances the flow
and returns the next question with `ai_mode = false`, and the failed
persistence is silent (the store is left untouched). -/
theorem c6_counterexample :
    envSessionSaveDown.sessionSaveOk = false
    ∧ saveFailTurn.resp.ai_mode = some false
    ∧ saveFailTurn.resp.step_id = some 2
    ∧ saveFailTurn.resp.redirect_message = none
    ∧ saveFailTurn.store = storeAfterStart := by
  decide

/-- C6 as amended: only a lead-store failure during flow completion (the one
persistence call that raises) triggers the AI-mode fallback — the response
and the session dict get `ai_mode`, `flow_completed`, `phone_collected` all
forced true, and the generation path receives the fixed acknowledgement
text "Thank you for your information." rather than the user's message;
session-store write failures are swallowed by `save_user_session` and never
trigger the fallback. -/
theorem c6_amended :
    (∀ (env : Env) (store : Store) (sid raw : String) (s : GuidedSession) (st : Step),
      env.flowLoadOk = true → env.leadSaveOk = false →
      store.session = some s → s.flow_completed = false → s.ai_mode = false →
      env.flow.steps.find? (fun t => t.id == s.current_step) = some st →
      isResponseRelevant raw st = true →
      env.flow.steps.find? (fun t => t.id == s.current_step + 1) = none →
      (processResponse env store sid raw).resp.ai_mode = some true
        ∧ (processResponse env store sid raw).resp.flow_completed = some true
        ∧ (processResponse env store sid raw).resp.phone_collected = some true
        ∧ (processResponse env store sid raw).sess.ai_mode = true
        ∧ (processResponse env store sid raw).sess.flow_completed = true
        ∧ (processResponse env store sid raw).sess.phone_collected = true
        ∧ (processResponse env store sid raw).resp.response
            = some (aiGenerate env "Thank you for your information.")
        ∧ (processResponse env store sid raw).store.leads = store.leads)
    ∧ (∀ (env : Env) (store : Store) (sid raw : String) (s : GuidedSession) (st st' : Step),
      env.sessionSaveOk = false → env.flowLoadOk = true →
      store.session = some s → s.flow_completed = false → s.ai_mode = false →
      env.flow.steps.find? (fun t => t.id == s.current_step) = some st →
      isResponseRelevant raw st = true →
      env.flow.steps.find? (fun t => t.id == s.current_step + 1) = some st' →
      (processResponse env store sid raw).resp.ai_mode = some false
        ∧ (processResponse env store sid raw).store = store) := by
  constructor
  · intro env store sid raw s st hload hlead hsess hfc ham hfind hrel hnext
    simp [processResponse, hsess, hfc, ham, hload, hfind, hrel, hnext, completeFlow,
          saveLeadData, hlead, switchToAiMode, saveUserSession_leads]
  · intro env store sid raw s st st' hsave hload hsess hfc ham hfind hrel hnext
    simp [processResponse, hsess, hfc, ham, hload, hfind, hrel, hnext,
          saveUserSession, hsave]

/-- Witness for C6's amended statement: a lead-store failure at the gapped
flow's last step falls back to AI mode; a session-store failure mid-flow
does not. -/
theorem c6_witness :
    (processResponse envGapLeadDown gapLastStore "s1" "sim, quero").resp.ai_mode = some true
    ∧ (processResponse envSessionSaveDown storeAfterStart "s1" "Maria Silva").resp.ai_mode
        = some false :=
  ⟨(c6_amended.1 envGapLeadDown gapLastStore "s1" "sim, quero" { current_step := 4 }
      { id := 4, question := "q4", field := "wants_meeting", required := true,
        type := "boolean" }
      rfl rfl rfl rfl rfl (by decide) (by decide) (by decide)).1,
   (c6_amended.2 envSessionSaveDown storeAfterStart "s1" "Maria Silva" {}
      { id := 1, question := "Olá! Bem-vindo ao nosso escritório de advocacia. Para começar, qual é o seu nome completo?",
        field := "name", required := true, type := "text" }
      { id := 2, question := "Em qual área do direito você precisa de ajuda?\n\n1️⃣ Direito Penal\n2️⃣ Direito Civil\n3️⃣ Direito Trabalhista\n4️⃣ Direito de Família\n5️⃣ Outro\n\nPor favor, digite o número ou o nome da área:",
        field := "area_of_law", required := true, type := "choice" }
      rfl rfl (by decide) rfl rfl (by decide) (by decide) (by decide)).1⟩

/-- C8.  At a `name` step, the response `"42"` is rejected by the relevance
heuristic (purely numeric): the session dict and the store are untouched and
the same step's question is re-issued (under the fixed redirect prefix)
with the same `step_id`. -/
theorem c8_name_numeric_rejected (env : Env) (store : Store) (sid : String)
    (s : GuidedSession) (st : Step)
    (hsess : store.session = some s) (hfc : s.flow_completed = false)
    (ham : s.ai_mode = false) (hload : env.flowLoadOk = true)
    (hfind : env.flow.steps.find? (fun t => t.id == s.current_step) = some st)
    (hname : st.field = "name") :
    isResponseRelevant "42" st = false
      ∧ (processResponse env store sid "42").resp.question
          = some ("Por favor, responda à pergunta atual: " ++ st.question)
      ∧ (processResponse env store sid "42").resp.step_id = some st.id
      ∧ (processResponse env store sid "42").resp.redirect_message = some true
      ∧ (processResponse env store sid "42").sess = s
      ∧ (processResponse env store sid "42").store = store := by
  have hrel := name_step_rejects_42 st hname
  refine ⟨hrel, ?_⟩
  simp [processResponse, hsess, hfc, ham, hload, hfind, hrel]

/-- Witness for C8 at the gapped flow's first (name) step. -/
theorem c8_witness :
    (processResponse envGap gapStartStore "s1" "42").resp.question
        = some ("Por favor, responda à pergunta atual: " ++ "q1")
    ∧ (processResponse envGap gapStartStore "s1" "42").store = gapStartStore :=
  ⟨((c8_name_numeric_rejected envGap gapStartStore "s1" {}
      { id := 1, question := "q1", field := "name", required := true, type := "text" }
      rfl rfl rfl rfl (by decide) rfl).2).1,
   ((c8_name_numeric_rejected envGap gapStartStore "s1" {}
      { id := 1, question := "q1", field := "name", required := true, type := "text" }
      rfl rfl rfl rfl (by decide) rfl).2).2.2.2.2⟩

/-- Counterexample to C9 as stated: over the ascending non-contiguous flow
with ids 1, 3, 4, an accepted answer at step 3 advances to step 4 — the last
step, whose id equals the last step's id — yet the code reports
`is_final_step = false`, because line 183 compares the new id with
`len(flow["steps"]) = 3`, not with the last step's id. -/
theorem c9_counterexample :
    stepsAscending gapFlow = true
    ∧ (gapFlow.steps.map Step.id).getLast? = some 4
    ∧ gapTurn.resp.step_id = some 4
    ∧ gapTurn.resp.is_final_step = some false := by
  decide

/-- C9 as amended: when an accepted guided response finds a step with id
`current_step + 1`, `current_step` advances to it and its question is
returned, with `is_final_step` true exactly when the new step's id equals
the NUMBER of steps in the flow (which coincides with the last step's id
only for contiguous flows starting at 1). -/
theorem c9_amended (env : Env) (store : Store) (sid raw : String)
    (s : GuidedSession) (st st' : Step)
    (hsess : store.session = some s) (hfc : s.flow_completed = false)
    (ham : s.ai_mode = false) (hload : env.flowLoadOk = true)
    (hfind : env.flow.steps.find? (fun t => t.id == s.current_step) = some st)
    (hrel : isResponseRelevant raw st = true)
    (hnext : env.flow.steps.find? (fun t => t.id == s.current_step + 1) = some st') :
    st'.id = s.current_step + 1
      ∧ (processResponse env store sid raw).sess.current_step = s.current_step + 1
      ∧ (processResponse env store sid raw).resp.question = some st'.question
      ∧ (processResponse env store sid raw).resp.step_id = some st'.id
      ∧ (processResponse env store sid raw).resp.is_final_step
          = some (s.current_step + 1 == env.flow.steps.length) := by
  have hid : st'.id = s.current_step + 1 := by
    have := List.find?_some hnext
    simpa using this
  refine ⟨hid, ?_⟩
  simp [processResponse, hsess, hfc, ham, hload, hfind, hrel, hnext]

/-- Witness for C9's amended statement at step 3 of the gapped flow. -/
theorem c9_witness :
    (processResponse envGap gapStore "s1" "tenho um problema").sess.current_step = 3 + 1
    ∧ (processResponse envGap gapStore "s1" "tenho um problema").resp.question = some "q4" :=
  ⟨(c9_amended envGap gapStore "s1" "tenho um problema" { current_step := 3 }
      { id := 3, question := "q3", field := "situation", required := true, type := "text" }
      { id := 4, question := "q4", field := "wants_meeting", required := true,
        type := "boolean" }
      rfl rfl rfl rfl (by decide) (by decide) (by decide)).2.1,
   (c9_amended envGap gapStore "s1" "tenho um problema" { current_step := 3 }
      { id := 3, question := "q3", field := "situation", required := true, type := "text" }
      { id := 4, question := "q4", field := "wants_meeting", required := true,
        type := "boolean" }
      rfl rfl rfl rfl (by decide) (by decide) (by decide)).2.2.1⟩

/-- C10.  Whenever the guided engine rejects a response as irrelevant, the
re-prompt payload hardcodes `is_final_step = false` and
`flow_completed = false` (lines 160-161), regardless of the current step —
including the flow's last step, as the witness shows. -/
theorem c10_reject_flags (env : Env) (store : Store) (sid raw : String)
    (s : GuidedSession) (st : Step)
    (hsess : store.session = some s) (hfc : s.flow_completed = false)
    (ham : s.ai_mode = false) (hload : env.flowLoadOk = true)
    (hfind : env.flow.steps.find? (fun t => t.id == s.current_step) = some st)
    (hrel : isResponseRelevant raw st = false) :
    (processResponse env store sid raw).resp.is_final_step = some false
      ∧ (processResponse env store sid raw).resp.flow_completed = some false
      ∧ (processResponse env store sid raw).resp.redirect_message = some true
      ∧ (processResponse env store sid raw).sess = s
      ∧ (processResponse env store sid raw).store = store := by
  simp [processResponse, hsess, hfc, ham, hload, hfind, hrel]

/-! ### Lead-extraction lemmas for C7 -/

theorem strMk_ne_empty {l : List Char} (h : l ≠ []) : String.mk l ≠ "" :=
  fun he => h (congrArg String.data he)

theorem pyTitleAux_length (l : List Char) (b : Bool) :
    (pyTitleAux b l).length = l.length := by
  induction l generalizing b with
  | nil => rfl
  | cons c t ih => simp [pyTitleAux, ih]

theorem pyTitle_ne_empty {s : String} (h : s.toList ≠ []) : pyTitle s ≠ "" := by
  apply strMk_ne_empty
  intro he
  apply h
  have hl := congrArg List.length he
  rw [pyTitleAux_length] at hl
  exact List.length_eq_zero.mp (by simpa using hl)

theorem extract_name_wf (m : String) (cur : LeadData) (v : String)
    (h : (extractLeadInfo m cur).name = some v) : v ≠ "" := by
  unfold extractLeadInfo at h
  simp only at h
  split at h
  · rename_i hcond
    simp only [Bool.and_eq_true, decide_eq_true_eq] at hcond
    obtain ⟨⟨⟨-, hlen⟩, -⟩, -⟩ := hcond
    rcases hws : pySplit m with _ | ⟨w1, _ | ⟨w2, t⟩⟩ <;> rw [hws] at hlen h
    · simp at hlen
    · simp at hlen
    · have hv : v = pyTitle (pyJoinSpace ((w1 :: w2 :: t).take 2)) :=
        (Option.some.inj h).symm
      rw [hv]
      apply pyTitle_ne_empty
      show (pyJoinSpace [w1, w2]).data ≠ []
      simp [pyJoinSpace]
  · exact absurd h (by simp)

theorem extract_area_wf (m : String) (cur : LeadData) (v : String)
    (h : (extractLeadInfo m cur).area_of_law = some v) : v ≠ "" := by
  unfold extractLeadInfo at h
  simp only at h
  split at h
  · rcases ho : legalAreas.find? (fun kv => strContains (pyLower m) kv.1) with _ | kv
    · rw [ho] at h; simp at h
    · rw [ho] at h
      simp only [Option.map_some'] at h
      have hmem := List.mem_of_find?_eq_some ho
      have hall : ∀ x ∈ legalAreas, x.2 ≠ "" := by decide
      have hv : v = kv.2 := (Option.some.inj h).symm
      rw [hv]
      exact hall kv hmem
  · exact absurd h (by simp)

theorem extract_situation_wf (m : String) (cur : LeadData) (v : String)
    (h : (extractLeadInfo m cur).situation = some v) : v ≠ "" := by
  unfold extractLeadInfo at h
  simp only at h
  split at h
  · rename_i hcond
    simp only [Bool.and_eq_true, decide_eq_true_eq] at hcond
    obtain ⟨⟨-, hlen⟩, -⟩ := hcond
    have hv : v = pyTake m 200 := (Option.some.inj h).symm
    rw [hv]
    apply strMk_ne_empty
    intro he
    have hlt := congrArg List.length he
    simp only [List.length_take, List.length_nil] at hlt
    unfold pyLen at hlen
    omega
  · exact absurd h (by simp)

theorem extract_consent_true (m : String) (cur : LeadData) (b : Bool)
    (h : (extractLeadInfo m cur).consent = some b) : b = true := by
  unfold extractLeadInfo at h
  simp only at h
  split at h
  · exact (Option.some.inj h).symm
  · exact absurd h (by simp)

theorem extract_onlyUnset (m : String) (ld : LeadData) (hwf : leadWF ld) :
    onlyUnsetFields ld (extractLeadInfo m ld) := by
  obtain ⟨hn, ha, hs, hc⟩ := hwf
  refine ⟨?_, ?_, ?_, ?_⟩ <;> intro hset
  · rcases ho : ld.name with _ | v
    · rw [ho] at hset; simp at hset
    · have htr : strTruthy ld.name = true := by
        rw [ho]; simpa [strTruthy] using hn v ho
      unfold extractLeadInfo
      simp only [htr]
      simp
  · rcases ho : ld.area_of_law with _ | v
    · rw [ho] at hset; simp at hset
    · have htr : strTruthy ld.area_of_law = true := by
        rw [ho]; simpa [strTruthy] using ha v ho
      unfold extractLeadInfo
      simp only [htr]
      simp
  · rcases ho : ld.situation with _ | v
    · rw [ho] at hset; simp at hset
    · have htr : strTruthy ld.situation = true := by
        rw [ho]; simpa [strTruthy] using hs v ho
      unfold extractLeadInfo
      simp only [htr]
      simp
  · rcases ho : ld.consent with _ | b
    · rw [ho] at hset; simp at hset
    · cases b
      · exact absurd ho hc
      · have htr : boolTruthy ld.consent = true := by rw [ho]; rfl
        unfold extractLeadInfo
        simp only [htr]
        simp

theorem leadLE_refl (ld : LeadData) : leadLE ld ld :=
  ⟨fun _ h => h, fun _ h => h, fun _ h => h, fun _ h => h⟩

theorem leadLE_trans {a b c : LeadData} (h1 : leadLE a b) (h2 : leadLE b c) :
    leadLE a c :=
  ⟨fun v h => h2.1 v (h1.1 v h),
   fun v h => h2.2.1 v (h1.2.1 v h),
   fun v h => h2.2.2.1 v (h1.2.2.1 v h),
   fun v h => h2.2.2.2 v (h1.2.2.2 v h)⟩

theorem leadStep_def (ld : LeadData) (m : String) :
    leadStep ld m =
      if extractedNonempty (extractLeadInfo m ld) = true
      then mergeLead ld (extractLeadInfo m ld) else ld := rfl

theorem leadStep_le (ld : LeadData) (m : String) (hwf : leadWF ld) :
    leadLE ld (leadStep ld m) := by
  obtain ⟨hn, ha, hs, hc⟩ := extract_onlyUnset m ld hwf
  rw [leadStep_def]
  cases hne : extractedNonempty (extractLeadInfo m ld)
  · rw [if_neg (by simp)]
    exact leadLE_refl ld
  · rw [if_pos rfl]
    refine ⟨?_, ?_, ?_, ?_⟩ <;> intro v hv
    · have he := hn (by rw [hv]; rfl)
      simp [mergeLead, he, hv]
    · have he := ha (by rw [hv]; rfl)
      simp [mergeLead, he, hv]
    · have he := hs (by rw [hv]; rfl)
      simp [mergeLead, he, hv]
    · have he := hc (by rw [hv]; rfl)
      simp [mergeLead, he, hv]

theorem leadStep_wf (ld : LeadData) (m : String) (hwf : leadWF ld) :
    leadWF (leadStep ld m) := by
  obtain ⟨hn, ha, hs, hc⟩ := hwf
  rw [leadStep_def]
  cases hne : extractedNonempty (extractLeadInfo m ld)
  · rw [if_neg (by simp)]
    exact ⟨hn, ha, hs, hc⟩
  · rw [if_pos rfl]
    refine ⟨?_, ?_, ?_, ?_⟩
    · intro v hv
      simp only [mergeLead] at hv
      rcases he : (extractLeadInfo m ld).name with _ | w
      · rw [he] at hv; exact hn v hv
      · rw [he] at hv
        rw [← Option.some.inj hv]
        exact extract_name_wf m ld w he
    · intro v hv
      simp only [mergeLead] at hv
      rcases he : (extractLeadInfo m ld).area_of_law with _ | w
      · rw [he] at hv; exact ha v hv
      · rw [he] at hv
        rw [← Option.some.inj hv]
        exact extract_area_wf m ld w he
    · intro v hv
      simp only [mergeLead] at hv
      rcases he : (extractLeadInfo m ld).situation with _ | w
      · rw [he] at hv; exact hs v hv
      · rw [he] at hv
        rw [← Option.some.inj hv]
        exact extract_situation_wf m ld w he
    · simp only [mergeLead]
      rcases he : (extractLeadInfo m ld).consent with _ | b
      · simpa [he] using hc
      · have hb := extract_consent_true m ld b he
        subst hb
        simp [he]

theorem leadWF_empty : leadWF {} := by
  unfold leadWF
  refine ⟨?_, ?_, ?_, ?_⟩ <;> simp

theorem leadWF_foldl (msgs : List String) (ld : LeadData) (hwf : leadWF ld) :
    leadWF (List.foldl leadStep ld msgs) := by
  induction msgs generalizing ld with
  | nil => exact hwf
  | cons m t ih => exact ih _ (leadStep_wf ld m hwf)

theorem leadLE_foldl (msgs : List String) (ld : LeadData) (hwf : leadWF ld) :
    leadLE ld (List.foldl leadStep ld msgs) := by
  induction msgs generalizing ld with
  | nil => exact leadLE_refl ld
  | cons m t ih =>
    exact leadLE_trans (leadStep_le ld m hwf) (ih _ (leadStep_wf ld m hwf))

/-- C7.  AI-first lead extraction is first-write-wins and monotonic: along
any processed message sequence (starting from a fresh session's empty
`lead_data`), every field already set keeps its exact value under any
further messages, and each extraction call returns only fields not yet set
(`none` modelling a key absent from the returned dict, so an all-`none`
result is the empty map). -/
theorem c7_monotonic :
    (∀ msgs rest : List String, leadLE (leadAfter msgs) (leadAfter (msgs ++ rest)))
    ∧ (∀ (msgs : List String) (m : String),
        onlyUnsetFields (leadAfter msgs) (extractLeadInfo m (leadAfter msgs)))
    ∧ (∀ (env : Env) (store : AIStore) (msg sid : String) (pn : Option String)
        (pf : String) (s : AISession), store.session = some s →
        (processMessage env store msg sid pn pf).sess.lead_data
          = leadStep s.lead_data msg) := by
  refine ⟨?_, ?_, ?_⟩
  · intro msgs rest
    have hwf : leadWF (leadAfter msgs) := leadWF_foldl msgs {} leadWF_empty
    unfold leadAfter
    rw [List.foldl_append]
    exact leadLE_foldl rest _ hwf
  · intro msgs m
    exact extract_onlyUnset m (leadAfter msgs) (leadWF_foldl msgs {} leadWF_empty)
  · intro env store msg sid pn pf s hsess
    cases hne : extractedNonempty (extractLeadInfo msg s.lead_data) <;>
      cases hsl : env.leadSaveOk <;>
        simp [processMessage, hsess, hne, hsl, saveLeadIfReady, saveAISession,
              leadStep_def] <;>
          split <;> simp

/-- Witness for C7: the name set by the first message survives a second
message, whose extraction returns no `name` field, and one `process_message`
turn evolves the stored session's `lead_data` by exactly one `leadStep`. -/
theorem c7_witness :
    (leadAfter ["Maria Silva", "Pedro Santos"]).name = some "Maria Silva"
    ∧ (extractLeadInfo "Pedro Santos" (leadAfter ["Maria Silva"])).name = none
    ∧ (processMessage envOk aiStore1 "Maria Silva" "s1" none "web").sess.lead_data
        = leadStep ({} : LeadData) "Maria Silva" :=
  ⟨(c7_monotonic.1 ["Maria Silva"] ["Pedro Santos"]).1 "Maria Silva" (by decide),
   (c7_monotonic.2.1 ["Maria Silva"] "Pedro Santos").1 (by decide),
   c7_monotonic.2.2 envOk aiStore1 "Maria Silva" "s1" none "web"
     { session_id := "s1" } rfl⟩

/-! ### Structured-response lemmas for C5 -/

theorem startConversation_ok_question (env : Env) (store : Store) (sid : String)
    (out : ConvResponse × GuidedSession × Store)
    (h : startConversation env store sid = .ok out) :
    (out.1.question).isSome = true := by
  unfold startConversation at h
  split at h
  · rcases hf : env.flow.steps.find? (fun st => st.id == 1) with _ | first
    · simp only [hf] at h
      exact absurd h (by simp)
    · simp only [hf] at h
      cases h; simp
  · simp at h

theorem switchToAiMode_response (env : Env) (store : Store) (sid msg : String) :
    ((switchToAiMode env store sid msg).1.response).isSome = true := by
  simp [switchToAiMode]

theorem completeFlow_structured (env : Env) (store : Store) (sid : String)
    (s : GuidedSession) :
    ((completeFlow env store sid s).1.question).isSome = true
      ∨ ((completeFlow env store sid s).1.response).isSome = true := by
  unfold completeFlow saveLeadData
  cases hl : env.leadSaveOk <;> simp [hl, switchToAiMode]

theorem handlePhoneCollection_structured (env : Env) (store : Store) (sid : String)
    (s : GuidedSession) (raw : String) :
    ((handlePhoneCollection env store sid s raw).resp.question).isSome = true
      ∨ ((handlePhoneCollection env store sid s raw).resp.response).isSome = true := by
  cases hc : (decide (pyLen (cleanDigits raw) < 10)
      || decide (pyLen (cleanDigits raw) > 11)) <;>
    simp [handlePhoneCollection, hc]

/-- Counterexample to C5 as stated: `ConversationManager.start_conversation`
re-raises (line 104) rather than returning a structured response — here the
flow-store failure escapes to its caller as an exception. -/
theorem c5_counterexample :
    startConversation envFlowDown emptyStore "s1" = Except.error Exn.flowLoad := rfl

/-- C5 as amended: every Orchestrator operation except the guided
`start_conversation` (which re-raises on flow-load failure, as the
counterexample shows) terminates in a structured response over every
combination of collaborator failures: a guided turn always carries a
question or a response text, and the AI-first operations always return
their fixed payload shapes.  When the text-generation service fails, a
fixed apology string is returned and the session's mode is not mutated: the
guided AI-mode turn returns the fallback apology with the session dict and
the store entirely untouched, and the AI-first respond returns the same
fallback apology inside its normal structured payload (an AI-first session
carries no mode field; its per-turn bookkeeping writes are independent of
the generation outcome). -/
theorem c5_amended :
    (∀ (env : Env) (store : Store) (sid msg : String),
      ((processResponse env store sid msg).resp.question).isSome = true
        ∨ ((processResponse env store sid msg).resp.response).isSome = true)
    ∧ (∀ (env : Env) (store : AIStore) (raw sid : String),
      (handlePhoneNumberSubmission env store raw sid).resp.response_type
        = "phone_submitted")
    ∧ (∀ (env : Env) (store : AIStore) (msg sid : String) (pn : Option String)
        (pf : String),
      (processMessage env store msg sid pn pf).resp.response_type = "ai_intelligent")
    ∧ (∀ (store : AIStore) (sid : String), (getSessionContext store sid).session_id = sid)
    ∧ (∀ (env : Env) (store : AIStore) (msg sid : String) (pn : Option String)
        (pf : String), env.genOk = false →
      (processMessage env store msg sid pn pf).resp.response = some aiFallbackResponse)
    ∧ (∀ (env : Env) (store : Store) (sid msg : String) (s : GuidedSession),
      env.genOk = false → store.session = some s → s.ai_mode = true →
      s.phone_collected = true →
      (processResponse env store sid msg).resp.response = some aiFallbackResponse
        ∧ (processResponse env store sid msg).store = store
        ∧ (processResponse env store sid msg).sess = s) := by
  refine ⟨?_, fun env store raw sid => rfl, fun env store msg sid pn pf => rfl,
          fun store sid => rfl,
          fun env store msg sid pn pf hgen => by
            show some (aiGenerate env msg) = some aiFallbackResponse
            simp [aiGenerate, hgen], ?_⟩
  · intro env store sid msg
    rcases hs : store.session with _ | s
    · rw [processResponse]
      rcases hst : startConversation env store sid with e | out
      · simp [hs, hst, switchToAiMode]
      · obtain ⟨r, s', st'⟩ := out
        simp only [hs, hst]
        exact Or.inl (startConversation_ok_question env store sid (r, s', st') hst)
    · cases h1 : (s.flow_completed && !s.phone_collected)
      · cases h2 : s.ai_mode
        · cases h3 : env.flowLoadOk
          · simp [processResponse, hs, h1, h2, h3, switchToAiMode]
          · rcases hf : env.flow.steps.find? (fun t => t.id == s.current_step) with _ | st
            · simp [processResponse, hs, h1, h2, h3, hf, switchToAiMode]
            · cases h4 : isResponseRelevant msg st
              · simp [processResponse, hs, h1, h2, h3, hf, h4]
              · rcases hn : env.flow.steps.find?
                    (fun t => t.id == s.current_step + 1) with _ | st2
                · simp only [processResponse, hs, h1, h2, h3, hf, h4, hn]
                  exact completeFlow_structured env store sid _
                · simp [processResponse, hs, h1, h2, h3, hf, h4, hn]
        · simp [processResponse, hs, h1, h2]
      · simp only [processResponse, hs, h1]
        exact handlePhoneCollection_structured env store sid s msg
  · intro env store sid msg s hgen hsess hai hpc
    simp [processResponse, hsess, hai, hpc, aiGenerate, hgen]

/-- Witness for C5's amended statement: a concrete guided turn carries a
payload text, and a generation failure returns the fixed apology on both
the guided AI-mode turn (without touching the store) and the AI-first
respond. -/
theorem c5_witness :
    (((processResponse envOk storeAfterStart "s1" "oi").resp.question).isSome = true
      ∨ ((processResponse envOk storeAfterStart "s1" "oi").resp.response).isSome = true)
    ∧ (processResponse { flow := defaultFlow, genOk := false }
        { session := some { ai_mode := true, flow_completed := true,
                            phone_collected := true } } "s1" "olá").resp.response
        = some aiFallbackResponse
    ∧ (processMessage { flow := defaultFlow, genOk := false } aiStore1 "olá" "s1"
        none "web").resp.response = some aiFallbackResponse :=
  ⟨c5_amended.1 envOk storeAfterStart "s1" "oi",
   (c5_amended.2.2.2.2.2 { flow := defaultFlow, genOk := false }
      { session := some { ai_mode := true, flow_completed := true,
                          phone_collected := true } } "s1" "olá"
      { ai_mode := true, flow_completed := true, phone_collected := true }
      rfl rfl rfl rfl).1,
   c5_amended.2.2.2.2.1 { flow := defaultFlow, genOk := false } aiStore1 "olá" "s1"
     none "web" rfl⟩

/-- Witness for C10 at the gapped flow's LAST step (id 4), rejecting the
low-information token `"sim"`. -/
theorem c10_witness :
    (processResponse envGap gapLastStore "s1" "sim").resp.is_final_step = some false
    ∧ (processResponse envGap gapLastStore "s1" "sim").resp.flow_completed = some false :=
  ⟨(c10_reject_flags envGap gapLastStore "s1" "sim" { current_step := 4 }
      { id := 4, question := "q4", field := "wants_meeting", required := true,
        type := "boolean" }
      rfl rfl rfl rfl (by decide) (by decide)).1,
   (c10_reject_flags envGap gapLastStore "s1" "sim" { current_step := 4 }
      { id := 4, question := "q4", field := "wants_meeting", required := true,
        type := "boolean" }
      rfl rfl rfl rfl (by decide) (by decide)).2.1⟩

end Projecto
